import Mathlib

/-!
Verification of the cross-process cache coordination and background scheduling
subsystem of the myastroboard backend.

The definitions below are a shallow embedding of:
  - `backend/cache_store.py`   (TTL cache entries, shared cache file, location signature)
  - `backend/cache_updater.py` (refresh cycle, location change handling)
  - `backend/app.py`           (the per-report-kind API cache-read handlers)
  - `backend/uptonight_scheduler.py` (the external batch-job scheduler)

Machine conventions: unix timestamps and durations are `Int` seconds; JSON
payloads are abstracted as `String` values (the cache logic only ever tests
them against `null` and passes them through unchanged); Python dictionaries
holding the shared cache document are association lists keyed by the exact
string keys used in the source.
-/

namespace Myastroboard

/-- Constant `CACHE_TTL` from `backend/constants.py` (seconds). -/
def CACHE_TTL : Int := 1800

/-- Constant `WEATHER_CACHE_TTL` from `backend/constants.py` (seconds). -/
def WEATHER_CACHE_TTL : Int := 3600

/-- Constant `SCHEDULE_INTERVAL` from `backend/constants.py` (seconds, default value). -/
def SCHEDULE_INTERVAL : Int := 7201

/-- An in-memory TTL cache entry: the `{"timestamp": ..., "data": ...}` dictionaries
of `backend/cache_store.py`. `data = none` models JSON `null`. -/
structure CacheEntry where
  timestamp : Int
  data : Option String
deriving DecidableEq, Repr

/-- The empty entry `{"timestamp": 0, "data": None}` used at module load and on reset. -/
def emptyEntry : CacheEntry := ⟨0, none⟩

/-- A value stored under a key of the shared cache JSON document. Besides
well-formed entries the document may hold arbitrary JSON; `load_shared_cache_entry`
distinguishes exactly three shapes: not a dict, a dict missing `timestamp` or
`data`, and a dict with both fields. -/
inductive StoredVal where
  | notDict
  | missingField
  | entry (timestamp : Int) (data : Option String)
deriving DecidableEq, Repr

/-- The shared cache document (`astro_cache.json`): a JSON object mapping
report-kind keys to stored values, modelled as an association list. -/
abbrev SharedCache := List (String × StoredVal)

/-- Lookup of a key in the shared cache document (`shared_cache.get(key)`). -/
def lookupKey (k : String) : SharedCache → Option StoredVal
  | [] => none
  | (k', v) :: rest => if k = k' then some v else lookupKey k rest

/-- Assignment `shared_cache[key] = value`: replaces the value at `k` if present,
otherwise appends the binding; every other binding is kept as is. -/
def setKey (k : String) (v : StoredVal) : SharedCache → SharedCache
  | [] => [(k, v)]
  | (k', v') :: rest => if k = k' then (k, v) :: rest else (k', v') :: setKey k v rest

/-- Embedding of `update_shared_cache_entry(key, data, timestamp)`: under the
exclusive file lock the current document is re-read, only `key` is replaced by
`{"timestamp": timestamp, "data": data}`, and the whole document is written back.
The lock serializes writers, so the function is modelled as a pure transformation
of the document that was current when the lock was acquired. -/
def update_shared_cache_entry (key : String) (data : Option String) (timestamp : Int)
    (doc : SharedCache) : SharedCache :=
  setKey key (.entry timestamp data) doc

/-- Embedding of `load_shared_cache_entry(key)`: returns the stored entry only if
it is a dict containing both a `timestamp` and a `data` field, else `None`. -/
def load_shared_cache_entry (key : String) (doc : SharedCache) : Option CacheEntry :=
  match lookupKey key doc with
  | some (.entry t d) => some ⟨t, d⟩
  | _ => none

/-- Embedding of `sync_cache_from_shared(key, cache_entry)`: returns the flag the
Python function returns together with the (possibly updated) in-memory entry.
When the loaded entry is missing or its data is `null`, the in-memory entry is
returned untouched with `false`; otherwise the entry's data and timestamp replace
the in-memory ones and the flag is `true`. -/
def sync_cache_from_shared (key : String) (doc : SharedCache) (cache_entry : CacheEntry) :
    Bool × CacheEntry :=
  match load_shared_cache_entry key doc with
  | none => (false, cache_entry)
  | some e =>
    match e.data with
    | none => (false, cache_entry)
    | some d => (true, ⟨e.timestamp, some d⟩)

/-- Embedding of `is_cache_valid(cache_entry, ttl_seconds)` with the call to
`time.time()` made explicit as the `now` argument. `none` models passing a
falsy value (`None` or an empty dict) for the entry. -/
def is_cache_valid (cache_entry : Option CacheEntry) (ttl_seconds : Int) (now : Int) : Bool :=
  match cache_entry with
  | none => false
  | some e =>
    match e.data with
    | none => false
    | some _ => decide (now - e.timestamp < ttl_seconds)

/-- The closed set of report kinds (the keys of the shared cache document plus
the memory-only weather cache). -/
inductive CacheKey where
  | moon_report
  | sun_report
  | dark_window
  | moon_planner
  | best_window_strict
  | best_window_practical
  | best_window_illumination
  | solar_eclipse
  | lunar_eclipse
  | horizon_graph
  | weather
deriving DecidableEq, Repr

/-- The string under which each report kind is stored in the shared cache
document (the weather cache is never written there; its name is given for
completeness). -/
def keyName : CacheKey → String
  | .moon_report => "moon_report"
  | .sun_report => "sun_report"
  | .dark_window => "dark_window"
  | .moon_planner => "moon_planner"
  | .best_window_strict => "best_window_strict"
  | .best_window_practical => "best_window_practical"
  | .best_window_illumination => "best_window_illumination"
  | .solar_eclipse => "solar_eclipse"
  | .lunar_eclipse => "lunar_eclipse"
  | .horizon_graph => "horizon_graph"
  | .weather => "weather"

/-! Basic frame lemmas about the shared cache document. -/

theorem lookupKey_setKey_self (k : String) (v : StoredVal) (doc : SharedCache) :
    lookupKey k (setKey k v doc) = some v := by
  induction doc with
  | nil => simp [setKey, lookupKey]
  | cons p rest ih =>
    obtain ⟨k', v'⟩ := p
    by_cases h : k = k'
    · simp [setKey, lookupKey, h]
    · simp [setKey, lookupKey, h, ih]

theorem lookupKey_setKey_other {k k' : String} (h : k' ≠ k) (v : StoredVal)
    (doc : SharedCache) : lookupKey k' (setKey k v doc) = lookupKey k' doc := by
  induction doc with
  | nil => simp [setKey, lookupKey, h]
  | cons p rest ih =>
    obtain ⟨k'', v''⟩ := p
    by_cases h2 : k = k''
    · subst h2
      simp [setKey, lookupKey, h]
    · by_cases h3 : k' = k''
      · simp [setKey, lookupKey, h2, h3]
      · simp [setKey, lookupKey, h2, h3, ih]

/-- C2: is_cache_valid returns true exactly when the entry is non-empty, its data
is non-null and `now - timestamp < ttl`; at the boundary `now - timestamp = ttl`
the entry is invalid; an entry with null data is invalid regardless of timestamp. -/
theorem c2_is_cache_valid_spec (e : Option CacheEntry) (ttl now : Int) :
    (is_cache_valid e ttl now = true ↔
      ∃ c d, e = some c ∧ c.data = some d ∧ now - c.timestamp < ttl) ∧
    (∀ c, e = some c → now - c.timestamp = ttl → is_cache_valid e ttl now = false) ∧
    (∀ c, e = some c → c.data = none → is_cache_valid e ttl now = false) := by
  refine ⟨?_, ?_, ?_⟩
  · constructor
    · intro h
      match e with
      | none => simp [is_cache_valid] at h
      | some c =>
        match hd : c.data with
        | none => simp [is_cache_valid, hd] at h
        | some d =>
          refine ⟨c, d, rfl, hd, ?_⟩
          simpa [is_cache_valid, hd] using h
    · rintro ⟨c, d, rfl, hd, hlt⟩
      simp [is_cache_valid, hd, hlt]
  · rintro c rfl hb
    match hd : c.data with
    | none => simp [is_cache_valid, hd]
    | some d =>
      simp only [is_cache_valid, hd, hb]
      simp
  · rintro c rfl hd
    simp [is_cache_valid, hd]

/-- Witness for C2 at TTL = 1800: an entry written at time 0 with data is valid at
`now = 1799`, invalid at the boundary `now = 1800`, and an entry with null data
is invalid even at `now = 0`. -/
theorem c2_is_cache_valid_spec_witness :
    is_cache_valid (some ⟨0, some "full-moon"⟩) CACHE_TTL 1799 = true ∧
    is_cache_valid (some ⟨0, some "full-moon"⟩) CACHE_TTL 1800 = false ∧
    is_cache_valid (some ⟨1800, none⟩) CACHE_TTL 0 = false := by
  refine ⟨?_, ?_, ?_⟩
  · exact (c2_is_cache_valid_spec (some ⟨0, some "full-moon"⟩) CACHE_TTL 1799).1.mpr
      ⟨⟨0, some "full-moon"⟩, "full-moon", rfl, rfl, by decide⟩
  · exact (c2_is_cache_valid_spec (some ⟨0, some "full-moon"⟩) CACHE_TTL 1800).2.1
      ⟨0, some "full-moon"⟩ rfl (by decide)
  · exact (c2_is_cache_valid_spec (some ⟨1800, none⟩) CACHE_TTL 0).2.2 ⟨1800, none⟩ rfl rfl

/-- C3: update_shared_cache_entry replaces only the entry at its key and leaves
every other key unchanged; therefore two serialized (lock-ordered) writes of
distinct keys A and B, in either order, lose neither key: after both writes both
entries are present with their written values. -/
theorem c3_update_shared_cache_entry_frame (doc : SharedCache) (kA kB : String)
    (dA dB : Option String) (tA tB : Int) (hAB : kA ≠ kB) :
    (∀ k', k' ≠ kA → lookupKey k' (update_shared_cache_entry kA dA tA doc) = lookupKey k' doc) ∧
    lookupKey kA (update_shared_cache_entry kA dA tA doc) = some (.entry tA dA) ∧
    (lookupKey kA (update_shared_cache_entry kB dB tB (update_shared_cache_entry kA dA tA doc))
        = some (.entry tA dA) ∧
      lookupKey kB (update_shared_cache_entry kB dB tB (update_shared_cache_entry kA dA tA doc))
        = some (.entry tB dB)) ∧
    (lookupKey kA (update_shared_cache_entry kA dA tA (update_shared_cache_entry kB dB tB doc))
        = some (.entry tA dA) ∧
      lookupKey kB (update_shared_cache_entry kA dA tA (update_shared_cache_entry kB dB tB doc))
        = some (.entry tB dB)) := by
  refine ⟨?_, ?_, ⟨?_, ?_⟩, ⟨?_, ?_⟩⟩
  · intro k' hk'
    exact lookupKey_setKey_other hk' _ doc
  · exact lookupKey_setKey_self kA _ doc
  · rw [update_shared_cache_entry, update_shared_cache_entry,
      lookupKey_setKey_other hAB, lookupKey_setKey_self]
  · exact lookupKey_setKey_self kB _ _
  · exact lookupKey_setKey_self kA _ _
  · rw [update_shared_cache_entry, update_shared_cache_entry,
      lookupKey_setKey_other (Ne.symm hAB), lookupKey_setKey_self]

/-- Witness for C3 at the concrete keys `moon_report` and `sun_report` on an
initially empty document. -/
theorem c3_update_shared_cache_entry_frame_witness :
    lookupKey "moon_report"
        (update_shared_cache_entry "sun_report" (some "s") 2
          (update_shared_cache_entry "moon_report" (some "m") 1 []))
      = some (.entry 1 (some "m")) ∧
    lookupKey "sun_report"
        (update_shared_cache_entry "sun_report" (some "s") 2
          (update_shared_cache_entry "moon_report" (some "m") 1 []))
      = some (.entry 2 (some "s")) := by
  exact (c3_update_shared_cache_entry_frame [] "moon_report" "sun_report"
    (some "m") (some "s") 1 2 (by decide)).2.2.1

/-- C10: sync_cache_from_shared returns false and leaves the in-memory entry
unchanged whenever the shared document has no entry for the key, the stored
value is not a dict with both `timestamp` and `data` fields, or its data is
null; whenever it returns true, the in-memory entry is overwritten with exactly
the shared values. -/
theorem c10_sync_cache_from_shared_spec (key : String) (doc : SharedCache)
    (mem : CacheEntry) :
    ((lookupKey key doc = none ∨ lookupKey key doc = some .notDict ∨
        lookupKey key doc = some .missingField ∨
        (∃ t, lookupKey key doc = some (.entry t none))) →
      sync_cache_from_shared key doc mem = (false, mem)) ∧
    ((sync_cache_from_shared key doc mem).1 = true →
      ∃ t d, lookupKey key doc = some (.entry t (some d)) ∧
        (sync_cache_from_shared key doc mem).2 = ⟨t, some d⟩) ∧
    ((sync_cache_from_shared key doc mem).1 = false →
      (sync_cache_from_shared key doc mem).2 = mem) := by
  refine ⟨?_, ?_, ?_⟩
  · intro h
    rcases h with h | h | h | ⟨t, h⟩ <;>
      simp [sync_cache_from_shared, load_shared_cache_entry, h]
  · intro h
    match hl : lookupKey key doc with
    | none => simp [sync_cache_from_shared, load_shared_cache_entry, hl] at h
    | some .notDict => simp [sync_cache_from_shared, load_shared_cache_entry, hl] at h
    | some .missingField => simp [sync_cache_from_shared, load_shared_cache_entry, hl] at h
    | some (.entry t none) => simp [sync_cache_from_shared, load_shared_cache_entry, hl] at h
    | some (.entry t (some d)) =>
      exact ⟨t, d, rfl, by simp [sync_cache_from_shared, load_shared_cache_entry, hl]⟩
  · intro h
    match hl : lookupKey key doc with
    | none => simp [sync_cache_from_shared, load_shared_cache_entry, hl]
    | some .notDict => simp [sync_cache_from_shared, load_shared_cache_entry, hl]
    | some .missingField => simp [sync_cache_from_shared, load_shared_cache_entry, hl]
    | some (.entry t none) => simp [sync_cache_from_shared, load_shared_cache_entry, hl]
    | some (.entry t (some d)) =>
      simp [sync_cache_from_shared, load_shared_cache_entry, hl] at h

/-- Witness for C10: a null-data shared entry leaves the memory entry unchanged
with result false, and a well-formed shared entry overwrites it with result true. -/
theorem c10_sync_cache_from_shared_spec_witness :
    sync_cache_from_shared "moon_report" [("moon_report", .entry 7 none)] ⟨3, some "old"⟩
      = (false, ⟨3, some "old"⟩) ∧
    (sync_cache_from_shared "moon_report" [("moon_report", .entry 7 (some "new"))]
        ⟨3, some "old"⟩).2 = ⟨7, some "new"⟩ := by
  constructor
  · exact (c10_sync_cache_from_shared_spec "moon_report" [("moon_report", .entry 7 none)]
      ⟨3, some "old"⟩).1 (Or.inr (Or.inr (Or.inr ⟨7, rfl⟩)))
  · obtain ⟨t, d, h1, h2⟩ := (c10_sync_cache_from_shared_spec "moon_report"
      [("moon_report", .entry 7 (some "new"))] ⟨3, some "old"⟩).2.1 rfl
    simp [lookupKey] at h1
    obtain ⟨rfl, rfl⟩ := h1
    exact h2

/-! The API cache-read handlers of `backend/app.py`. -/

/-- What a report handler returns: the cached JSON (HTTP 200), the pending
signal (HTTP 202), or an error (HTTP 500). -/
inductive ApiResponse where
  | ok (data : Option String)
  | pending
  | error
deriving DecidableEq, Repr

/-- Observable side effect of one handler invocation: a locked read of the
shared cache file, an invocation of the report generator, a write of the
in-memory entry, or a locked write of the shared cache file. -/
inductive Effect where
  | sharedRead
  | genCall (k : CacheKey)
  | memWrite (k : CacheKey)
  | sharedWrite (key : String)
deriving DecidableEq, Repr

/-- The three-tier handler body shared verbatim by the ten astronomical report
endpoints of `backend/app.py` (`get_moon_report_api` and its siblings):
memory hit, else hydrate from the shared cache file, else call the report
generator synchronously through the `update_*_cache` function (which catches
its own exceptions; `gen = none` models a raising generator), else 202 pending.
The result carries the response, the final in-memory entry, the final shared
document and the list of side effects in order. -/
def threeTierRead (k : CacheKey) (mem : CacheEntry) (doc : SharedCache)
    (gen : Option String) (now : Int) :
    ApiResponse × CacheEntry × SharedCache × List Effect :=
  if is_cache_valid (some mem) CACHE_TTL now then
    (.ok mem.data, mem, doc, [])
  else
    let s := sync_cache_from_shared (keyName k) doc mem
    if s.1 && is_cache_valid (some s.2) CACHE_TTL now then
      (.ok s.2.data, s.2, doc, [.sharedRead])
    else
      match gen with
      | some d =>
        let mem2 : CacheEntry := ⟨now, some d⟩
        let doc2 := update_shared_cache_entry (keyName k) (some d) now doc
        if is_cache_valid (some mem2) CACHE_TTL now then
          (.ok mem2.data, mem2, doc2,
            [.sharedRead, .genCall k, .memWrite k, .sharedWrite (keyName k)])
        else
          (.pending, mem2, doc2,
            [.sharedRead, .genCall k, .memWrite k, .sharedWrite (keyName k)])
      | none =>
        if is_cache_valid (some s.2) CACHE_TTL now then
          (.ok s.2.data, s.2, doc, [.sharedRead, .genCall k])
        else
          (.pending, s.2, doc, [.sharedRead, .genCall k])

/-- The weather endpoint `get_hourly_forecast_api` of `backend/app.py`: it calls
`get_hourly_forecast()` directly on every request — no cache read, no shared
file, no pending signal — and answers HTTP 500 when the generator returns
`None` or raises. -/
def weatherForecastRead (gen : Option String) : ApiResponse × List Effect :=
  match gen with
  | none => (.error, [.genCall .weather])
  | some d => (.ok (some d), [.genCall .weather])

/-- The API read dispatch over all report kinds: the ten astronomical kinds use
the three-tier handler; the weather kind uses the direct handler, which touches
neither the in-memory entry nor the shared document. -/
def apiRead (k : CacheKey) (mem : CacheEntry) (doc : SharedCache)
    (gen : Option String) (now : Int) :
    ApiResponse × CacheEntry × SharedCache × List Effect :=
  match k with
  | .weather =>
    let r := weatherForecastRead gen
    (r.1, mem, doc, r.2)
  | _ => threeTierRead k mem doc gen now

/-- C1 counterexample: for the report kind `weather` the claim fails — the
handler performs no cache read at all and, when the generator fails, answers an
error (HTTP 500) instead of the claimed pending status (HTTP 202). -/
theorem c1_weather_read_counterexample :
    (apiRead .weather ⟨0, none⟩ [] none 0).1 = .error ∧
    (apiRead .weather ⟨0, none⟩ [] none 0).1 ≠ .pending ∧
    Effect.sharedRead ∉ (apiRead .weather ⟨0, none⟩ [] none 0).2.2.2 := by
  decide

/-- C1 amended: for every astronomical report kind (every kind except weather)
the API cache read follows the three-tier fallback: a valid in-memory entry is
returned with no side effects at all; otherwise the entry hydrated from the
shared cache file is returned if then valid; otherwise the generator runs
synchronously and a fresh entry is returned on success; otherwise the handler
answers pending — and the handler never answers an error. -/
theorem c1_three_tier_fallback (k : CacheKey) (hk : k ≠ .weather)
    (mem : CacheEntry) (doc : SharedCache) (gen : Option String) (now : Int) :
    (is_cache_valid (some mem) CACHE_TTL now = true →
      apiRead k mem doc gen now = (.ok mem.data, mem, doc, [])) ∧
    (is_cache_valid (some mem) CACHE_TTL now = false →
      ((sync_cache_from_shared (keyName k) doc mem).1 &&
          is_cache_valid (some (sync_cache_from_shared (keyName k) doc mem).2)
            CACHE_TTL now) = true →
      apiRead k mem doc gen now =
        (.ok (sync_cache_from_shared (keyName k) doc mem).2.data,
          (sync_cache_from_shared (keyName k) doc mem).2, doc, [.sharedRead])) ∧
    (is_cache_valid (some mem) CACHE_TTL now = false →
      ((sync_cache_from_shared (keyName k) doc mem).1 &&
          is_cache_valid (some (sync_cache_from_shared (keyName k) doc mem).2)
            CACHE_TTL now) = false →
      ∀ d, gen = some d →
      apiRead k mem doc gen now =
        (.ok (some d), ⟨now, some d⟩,
          update_shared_cache_entry (keyName k) (some d) now doc,
          [.sharedRead, .genCall k, .memWrite k, .sharedWrite (keyName k)])) ∧
    (is_cache_valid (some mem) CACHE_TTL now = false →
      ((sync_cache_from_shared (keyName k) doc mem).1 &&
          is_cache_valid (some (sync_cache_from_shared (keyName k) doc mem).2)
            CACHE_TTL now) = false →
      gen = none →
      (apiRead k mem doc gen now).1 = .pending) ∧
    (apiRead k mem doc gen now).1 ≠ .error := by
  have happ : apiRead k mem doc gen now = threeTierRead k mem doc gen now := by
    cases k <;> first | rfl | exact absurd rfl hk
  refine ⟨?_, ?_, ?_, ?_, ?_⟩
  · intro h1
    rw [happ, threeTierRead]
    simp [h1]
  · intro h1 h2
    rw [happ, threeTierRead]
    simp [h1, h2]
  · intro h1 h2 d hd
    subst hd
    rw [happ, threeTierRead]
    have hvalid : is_cache_valid (some ⟨now, some d⟩) CACHE_TTL now = true := by
      simp [is_cache_valid, CACHE_TTL]
    simp [h1, h2, hvalid]
  · intro h1 h2 hgen
    subst hgen
    rw [happ, threeTierRead]
    have hv2 : is_cache_valid (some (sync_cache_from_shared (keyName k) doc mem).2)
        CACHE_TTL now = false := by
      rcases hs : (sync_cache_from_shared (keyName k) doc mem).1 with _ | _
      · obtain ⟨_, h⟩ := (c10_sync_cache_from_shared_spec (keyName k) doc mem).2
        rw [h hs]
        exact h1
      · simpa [hs] using h2
    simp [h1, h2, hv2]
  · rw [happ, threeTierRead]
    rcases h1 : is_cache_valid (some mem) CACHE_TTL now with _ | _
    · rcases h2 : ((sync_cache_from_shared (keyName k) doc mem).1 &&
          is_cache_valid (some (sync_cache_from_shared (keyName k) doc mem).2)
            CACHE_TTL now) with _ | _
      · match gen with
        | some d =>
          rcases h3 : is_cache_valid (some (⟨now, some d⟩ : CacheEntry)) CACHE_TTL now with _ | _
            <;> simp [h1, h2, h3]
        | none =>
          rcases h3 : is_cache_valid (some (sync_cache_from_shared (keyName k) doc mem).2)
              CACHE_TTL now with _ | _
          · simp [h1, h2, h3]
          · simp [h1, h2, h3]
            split <;> simp
      · simp [h1, h2]
    · simp [h1]

/-- Witness for C1 amended, at kind `moon_report`: a fresh in-memory entry is
returned with no side effects, and a cold cache with a failing generator
answers pending. -/
theorem c1_three_tier_fallback_witness :
    apiRead .moon_report ⟨0, some "report"⟩ [] none 10 = (.ok (some "report"), ⟨0, some "report"⟩, [], []) ∧
    (apiRead .moon_report ⟨0, none⟩ [] none 10).1 = .pending := by
  constructor
  · exact (c1_three_tier_fallback .moon_report (by decide) ⟨0, some "report"⟩ [] none 10).1
      (by decide)
  · exact (c1_three_tier_fallback .moon_report (by decide) ⟨0, none⟩ [] none 10).2.2.2.1
      (by decide) (by decide) rfl

/-! Location signature tracking and the location-change cache reset
(`cache_store.py` and `check_and_handle_config_changes` of `cache_updater.py`). -/

/-- The four-field location signature of `get_current_location_signature`.
Numeric coordinate values are abstracted as integers; each field is optional
because `dict.get` yields `None` for a missing field. -/
structure LocationSignature where
  latitude : Option Int
  longitude : Option Int
  elevation : Option Int
  timezone : Option String
deriving DecidableEq, Repr

/-- Embedding of `get_current_location_signature(location_config)`: a falsy
(missing or empty) location config yields `None`, otherwise the projection onto
the four fields — which the `Option LocationSignature` argument already is. -/
def get_current_location_signature (location_config : Option LocationSignature) :
    Option LocationSignature :=
  location_config

/-- Embedding of `has_location_changed(new_location_config)` with the
module-global `_last_known_location_config` passed explicitly. -/
def has_location_changed (last : LocationSignature)
    (new_location_config : Option LocationSignature) : Bool :=
  match get_current_location_signature new_location_config with
  | none => true
  | some sig =>
    if last.latitude = none then true
    else
      decide (last.latitude ≠ sig.latitude) || decide (last.longitude ≠ sig.longitude) ||
      decide (last.elevation ≠ sig.elevation) || decide (last.timezone ≠ sig.timezone)

/-- Embedding of `update_location_config(new_location_config)`: adopt the new
signature when it is truthy, else keep the previous one. -/
def update_location_config (last : LocationSignature)
    (new_location_config : Option LocationSignature) : LocationSignature :=
  match get_current_location_signature new_location_config with
  | some sig => sig
  | none => last

/-- The ten astronomical cache keys, in the order of the dict literal of
`_write_all_astronomical_caches_to_shared`. -/
def astroKeys : List CacheKey :=
  [.moon_report, .sun_report, .moon_planner, .dark_window,
   .best_window_strict, .best_window_practical, .best_window_illumination,
   .solar_eclipse, .lunar_eclipse, .horizon_graph]

/-- Embedding of `_write_all_astronomical_caches_to_shared`: under the exclusive
lock the current shared document is re-read and the ten astronomical keys are
replaced by the current in-memory entries. -/
def write_all_astronomical_caches_to_shared (mem : CacheKey → CacheEntry)
    (doc : SharedCache) : SharedCache :=
  astroKeys.foldl (fun d k => setKey (keyName k) (.entry (mem k).timestamp (mem k).data) d) doc

/-- Embedding of `reset_all_caches`: the ten astronomical in-memory entries are
reset to `{"timestamp": 0, "data": None}` (the weather entry is not touched)
and the reset entries are written to the shared cache file. -/
def reset_all_caches (mem : CacheKey → CacheEntry) (doc : SharedCache) :
    (CacheKey → CacheEntry) × SharedCache :=
  let mem2 : CacheKey → CacheEntry := fun k => if k = .weather then mem k else emptyEntry
  (mem2, write_all_astronomical_caches_to_shared mem2 doc)

/-- Embedding of `check_and_handle_config_changes` of `cache_updater.py`, with
the module state (persisted signature, in-memory entries, shared document) made
explicit. Returns the `True`/`False` result together with the new state. -/
def check_and_handle_config_changes (location_config : Option LocationSignature)
    (last : LocationSignature) (mem : CacheKey → CacheEntry) (doc : SharedCache) :
    Bool × LocationSignature × (CacheKey → CacheEntry) × SharedCache :=
  match location_config with
  | none => (false, last, mem, doc)
  | some _ =>
    if last.latitude = none then
      (false, update_location_config last location_config, mem, doc)
    else if has_location_changed last location_config then
      let r := reset_all_caches mem doc
      (true, update_location_config last location_config, r.1, r.2)
    else
      (false, last, mem, doc)

/-- A concrete pre-reset store whose weather entry holds data for the old
location, used to exhibit the C4 counterexample. -/
def c4Mem : CacheKey → CacheEntry := fun k =>
  if k = .weather then ⟨100, some "old-forecast"⟩ else ⟨100, some "old-report"⟩

/-- C4 counterexample: with a previously set signature and a changed latitude,
the handler resets the astronomical entries but NOT the weather entry — the
weather cache key still holds its data afterwards, refuting "resets every
CacheEntry" and "no cache key still holds data for the old location". -/
theorem c4_weather_not_reset_counterexample :
    (check_and_handle_config_changes
        (some ⟨some 51, some 0, some 10, some "Europe/London"⟩)
        ⟨some 48, some 2, some 35, some "Europe/Paris"⟩ c4Mem []).2.2.1 .weather
      = ⟨100, some "old-forecast"⟩ ∧
    (check_and_handle_config_changes
        (some ⟨some 51, some 0, some 10, some "Europe/London"⟩)
        ⟨some 48, some 2, some 35, some "Europe/Paris"⟩ c4Mem []).2.2.1 .weather
      ≠ emptyEntry ∧
    (check_and_handle_config_changes
        (some ⟨some 51, some 0, some 10, some "Europe/London"⟩)
        ⟨some 48, some 2, some 35, some "Europe/Paris"⟩ c4Mem []).1 = true := by
  refine ⟨rfl, by decide, rfl⟩

/-- Helper: after `write_all_astronomical_caches_to_shared`, each of the ten
astronomical keys holds exactly its in-memory entry. -/
theorem lookup_write_all (mem : CacheKey → CacheEntry) (doc : SharedCache)
    (k : CacheKey) (hk : k ∈ astroKeys) :
    lookupKey (keyName k) (write_all_astronomical_caches_to_shared mem doc)
      = some (.entry (mem k).timestamp (mem k).data) := by
  fin_cases hk <;>
    simp only [write_all_astronomical_caches_to_shared, astroKeys, keyName, List.foldl] <;>
    first
      | rw [lookupKey_setKey_self]
      | (rw [lookupKey_setKey_other (by decide), lookupKey_setKey_self])
      | (rw [lookupKey_setKey_other (by decide), lookupKey_setKey_other (by decide),
          lookupKey_setKey_self])
      | (rw [lookupKey_setKey_other (by decide), lookupKey_setKey_other (by decide),
          lookupKey_setKey_other (by decide), lookupKey_setKey_self])
      | (rw [lookupKey_setKey_other (by decide), lookupKey_setKey_other (by decide),
          lookupKey_setKey_other (by decide), lookupKey_setKey_other (by decide),
          lookupKey_setKey_self])
      | (rw [lookupKey_setKey_other (by decide), lookupKey_setKey_other (by decide),
          lookupKey_setKey_other (by decide), lookupKey_setKey_other (by decide),
          lookupKey_setKey_other (by decide), lookupKey_setKey_self])
      | (rw [lookupKey_setKey_other (by decide), lookupKey_setKey_other (by decide),
          lookupKey_setKey_other (by decide), lookupKey_setKey_other (by decide),
          lookupKey_setKey_other (by decide), lookupKey_setKey_other (by decide),
          lookupKey_setKey_self])
      | (rw [lookupKey_setKey_other (by decide), lookupKey_setKey_other (by decide),
          lookupKey_setKey_other (by decide), lookupKey_setKey_other (by decide),
          lookupKey_setKey_other (by decide), lookupKey_setKey_other (by decide),
          lookupKey_setKey_other (by decide), lookupKey_setKey_self])
      | (rw [lookupKey_setKey_other (by decide), lookupKey_setKey_other (by decide),
          lookupKey_setKey_other (by decide), lookupKey_setKey_other (by decide),
          lookupKey_setKey_other (by decide), lookupKey_setKey_other (by decide),
          lookupKey_setKey_other (by decide), lookupKey_setKey_other (by decide),
          lookupKey_setKey_self])
      | (rw [lookupKey_setKey_other (by decide), lookupKey_setKey_other (by decide),
          lookupKey_setKey_other (by decide), lookupKey_setKey_other (by decide),
          lookupKey_setKey_other (by decide), lookupKey_setKey_other (by decide),
          lookupKey_setKey_other (by decide), lookupKey_setKey_other (by decide),
          lookupKey_setKey_other (by decide), lookupKey_setKey_self])

/-- C4 amended: when the persisted signature was previously set and the active
signature differs in any of the four fields, the change handler resets every
ASTRONOMICAL cache entry to empty in memory and in the shared cache file and
persists the new signature; the weather entry is exempt from the reset. -/
theorem c4_location_change_reset (sig last : LocationSignature)
    (mem : CacheKey → CacheEntry) (doc : SharedCache)
    (hset : last.latitude ≠ none)
    (hchanged : has_location_changed last (some sig) = true) :
    (check_and_handle_config_changes (some sig) last mem doc).1 = true ∧
    (check_and_handle_config_changes (some sig) last mem doc).2.1 = sig ∧
    (∀ k, k ≠ CacheKey.weather →
      (check_and_handle_config_changes (some sig) last mem doc).2.2.1 k = emptyEntry ∧
      lookupKey (keyName k) (check_and_handle_config_changes (some sig) last mem doc).2.2.2
        = some (.entry 0 none)) := by
  simp only [check_and_handle_config_changes, hset, if_false, hchanged, if_true,
    update_location_config, get_current_location_signature]
  refine ⟨trivial, trivial, ?_⟩
  intro k hk
  constructor
  · simp [reset_all_caches, hk]
  · have hmem : k ∈ astroKeys := by cases k <;> simp [astroKeys] at hk ⊢
    have := lookup_write_all
      (fun k' => if k' = CacheKey.weather then mem k' else emptyEntry) doc k hmem
    simp only [reset_all_caches]
    rw [this]
    simp [hk, emptyEntry]

/-- Witness for C4 amended at a concrete changed latitude: the moon report entry
is reset in memory and in the shared file and the new signature is persisted. -/
theorem c4_location_change_reset_witness :
    (check_and_handle_config_changes
        (some ⟨some 51, some 0, some 10, some "Europe/London"⟩)
        ⟨some 48, some 2, some 35, some "Europe/Paris"⟩ c4Mem []).2.2.1 .moon_report
      = emptyEntry ∧
    lookupKey "moon_report"
        (check_and_handle_config_changes
          (some ⟨some 51, some 0, some 10, some "Europe/London"⟩)
          ⟨some 48, some 2, some 35, some "Europe/Paris"⟩ c4Mem []).2.2.2
      = some (.entry 0 none) := by
  have h := (c4_location_change_reset
    ⟨some 51, some 0, some 10, some "Europe/London"⟩
    ⟨some 48, some 2, some 35, some "Europe/Paris"⟩ c4Mem []
    (by decide) (by decide)).2.2 .moon_report (by decide)
  exact ⟨h.1, h.2⟩

/-! The Cache Refresher cycle of `cache_updater.py`, instrumented as the ordered
trace of generator invocations and cache writes it performs. -/

/-- One observable step of a refresh cycle: a report generator invocation, an
in-memory entry update, or a locked write of that entry to the shared cache file. -/
inductive CycleEvent where
  | genCall (k : CacheKey)
  | memWrite (k : CacheKey)
  | sharedWrite (k : CacheKey)
deriving DecidableEq, Repr

/-- Trace of one `update_*_cache` function for a single astronomical kind
(`update_moon_report_cache` and its siblings): the generator runs; on success
the in-memory entry is updated and immediately written to the shared cache
file; on failure the exception is caught and nothing is written. `ok k` tells
whether the generator call for kind `k` succeeds. -/
def updateAstroCacheTrace (k : CacheKey) (ok : Bool) : List CycleEvent :=
  if ok then [.genCall k, .memWrite k, .sharedWrite k] else [.genCall k]

/-- Trace of `update_best_window_cache`: the three modes run in order inside one
`try` block, each doing generator call, memory update and immediate shared
write; a failing mode aborts the remaining modes of this function. -/
def updateBestWindowCacheTrace (ok : CacheKey → Bool) : List CycleEvent :=
  .genCall .best_window_strict ::
    (if ok .best_window_strict then
      .memWrite .best_window_strict :: .sharedWrite .best_window_strict ::
      .genCall .best_window_practical ::
        (if ok .best_window_practical then
          .memWrite .best_window_practical :: .sharedWrite .best_window_practical ::
          .genCall .best_window_illumination ::
            (if ok .best_window_illumination then
              [.memWrite .best_window_illumination, .sharedWrite .best_window_illumination]
            else [])
        else [])
    else [])

/-- Trace of `update_weather_cache`: on success only the in-memory weather entry
is updated — the function contains no call to `update_shared_cache_entry`. -/
def updateWeatherCacheTrace (ok : Bool) : List CycleEvent :=
  if ok then [.genCall .weather, .memWrite .weather] else [.genCall .weather]

/-- The per-function segments of one refresh cycle, in the order of the
`cache_functions` list of `fully_initialize_caches` (the Python name of the
cycle function): moon report, dark window, moon planner, sun report, solar
eclipse, lunar eclipse, horizon graph, best window, weather. -/
def cycleSegments (ok : CacheKey → Bool) : List (List CycleEvent) :=
  [updateAstroCacheTrace .moon_report (ok .moon_report),
   updateAstroCacheTrace .dark_window (ok .dark_window),
   updateAstroCacheTrace .moon_planner (ok .moon_planner),
   updateAstroCacheTrace .sun_report (ok .sun_report),
   updateAstroCacheTrace .solar_eclipse (ok .solar_eclipse),
   updateAstroCacheTrace .lunar_eclipse (ok .lunar_eclipse),
   updateAstroCacheTrace .horizon_graph (ok .horizon_graph),
   updateBestWindowCacheTrace ok,
   updateWeatherCacheTrace (ok .weather)]

/-- The full event trace of one Cache Refresher cycle. -/
def fullCycleTrace (ok : CacheKey → Bool) : List CycleEvent :=
  (cycleSegments ok).flatten

/-- Three events appear consecutively, in order, somewhere in a trace. -/
def Consecutive (a b c : CycleEvent) (tr : List CycleEvent) : Prop :=
  ∃ l r, tr = l ++ a :: b :: c :: r

/-- C5 counterexample: even in a cycle where every generator (weather included)
succeeds, the weather entry is never written to the shared cache file — the
claim fails for the report kind `weather`. -/
theorem c5_weather_never_shared_counterexample :
    CycleEvent.memWrite .weather ∈ fullCycleTrace (fun _ => true) ∧
    CycleEvent.sharedWrite .weather ∉ fullCycleTrace (fun _ => true) := by
  decide

theorem consecutive_of_mem_segment {a b c : CycleEvent} (seg : List CycleEvent)
    {segs : List (List CycleEvent)} (hseg : seg ∈ segs)
    (h : ∃ l r, seg = l ++ a :: b :: c :: r) :
    ∃ l r, segs.flatten = l ++ a :: b :: c :: r := by
  induction segs with
  | nil => cases hseg
  | cons s rest ih =>
    rcases List.mem_cons.mp hseg with rfl | hmem
    · obtain ⟨l, r, hlr⟩ := h
      exact ⟨l, r ++ rest.flatten, by simp [hlr]⟩
    · obtain ⟨l, r, hlr⟩ := ih hmem
      exact ⟨s ++ l, r, by simp [hlr]⟩

theorem genCall_not_mem_astro {k k' : CacheKey} {b : Bool} (h : k' ≠ k) :
    CycleEvent.genCall k' ∉ updateAstroCacheTrace k b := by
  cases b <;> simp [updateAstroCacheTrace, h]

theorem genCall_not_mem_weather {k' : CacheKey} {b : Bool} (h : k' ≠ .weather) :
    CycleEvent.genCall k' ∉ updateWeatherCacheTrace b := by
  cases b <;> simp [updateWeatherCacheTrace, h]

/-- The generator for the practical best-window mode is invoked in a cycle only
when the strict mode succeeded first. -/
theorem genCall_practical_mem {ok : CacheKey → Bool}
    (h : CycleEvent.genCall .best_window_practical ∈ fullCycleTrace ok) :
    ok .best_window_strict = true := by
  by_contra hs
  rw [Bool.not_eq_true] at hs
  obtain ⟨seg, hseg, hin⟩ := List.mem_flatten.mp h
  simp only [cycleSegments, List.mem_cons, List.not_mem_nil, or_false] at hseg
  rcases hseg with rfl | rfl | rfl | rfl | rfl | rfl | rfl | rfl | rfl
  · exact genCall_not_mem_astro (by decide) hin
  · exact genCall_not_mem_astro (by decide) hin
  · exact genCall_not_mem_astro (by decide) hin
  · exact genCall_not_mem_astro (by decide) hin
  · exact genCall_not_mem_astro (by decide) hin
  · exact genCall_not_mem_astro (by decide) hin
  · exact genCall_not_mem_astro (by decide) hin
  · rw [updateBestWindowCacheTrace, hs] at hin
    simp at hin
  · exact genCall_not_mem_weather (by decide) hin

/-- The generator for the illumination best-window mode is invoked in a cycle
only when the strict and practical modes both succeeded first. -/
theorem genCall_illumination_mem {ok : CacheKey → Bool}
    (h : CycleEvent.genCall .best_window_illumination ∈ fullCycleTrace ok) :
    ok .best_window_strict = true ∧ ok .best_window_practical = true := by
  by_contra hsp
  obtain ⟨seg, hseg, hin⟩ := List.mem_flatten.mp h
  simp only [cycleSegments, List.mem_cons, List.not_mem_nil, or_false] at hseg
  rcases hseg with rfl | rfl | rfl | rfl | rfl | rfl | rfl | rfl | rfl
  · exact genCall_not_mem_astro (by decide) hin
  · exact genCall_not_mem_astro (by decide) hin
  · exact genCall_not_mem_astro (by decide) hin
  · exact genCall_not_mem_astro (by decide) hin
  · exact genCall_not_mem_astro (by decide) hin
  · exact genCall_not_mem_astro (by decide) hin
  · exact genCall_not_mem_astro (by decide) hin
  · rw [updateBestWindowCacheTrace] at hin
    rcases h1 : ok .best_window_strict with _ | _
    · rw [h1] at hin; simp at hin
    · rcases h2 : ok .best_window_practical with _ | _
      · rw [h1, h2] at hin; simp at hin
      · exact hsp ⟨h1, h2⟩
  · exact genCall_not_mem_weather (by decide) hin

/-- C5 amended: within one refresh cycle, for every ASTRONOMICAL report kind
whose generator is invoked and succeeds, the events "generator call, memory
update, shared cache file write" occur consecutively in the cycle trace — so
the entry is written to the shared file immediately, before any following
generator is invoked; the weather kind is exempt (its entry is never written to
the shared file). -/
theorem c5_immediate_shared_write (ok : CacheKey → Bool) (k : CacheKey)
    (hk : k ≠ .weather) (hcalled : CycleEvent.genCall k ∈ fullCycleTrace ok)
    (hok : ok k = true) :
    Consecutive (.genCall k) (.memWrite k) (.sharedWrite k) (fullCycleTrace ok) := by
  rw [Consecutive, fullCycleTrace]
  cases k with
  | weather => exact absurd rfl hk
  | best_window_strict =>
    refine consecutive_of_mem_segment
      (updateBestWindowCacheTrace ok) (by simp [cycleSegments]) ?_
    refine ⟨[], .genCall .best_window_practical ::
      (if ok .best_window_practical then
        .memWrite .best_window_practical :: .sharedWrite .best_window_practical ::
        .genCall .best_window_illumination ::
          (if ok .best_window_illumination then
            [.memWrite .best_window_illumination, .sharedWrite .best_window_illumination]
          else [])
      else []), ?_⟩
    simp [updateBestWindowCacheTrace, hok]
  | best_window_practical =>
    have hs : ok .best_window_strict = true := genCall_practical_mem hcalled
    refine consecutive_of_mem_segment
      (updateBestWindowCacheTrace ok) (by simp [cycleSegments]) ?_
    refine ⟨[.genCall .best_window_strict, .memWrite .best_window_strict,
      .sharedWrite .best_window_strict],
      .genCall .best_window_illumination ::
        (if ok .best_window_illumination then
          [.memWrite .best_window_illumination, .sharedWrite .best_window_illumination]
        else []), ?_⟩
    simp [updateBestWindowCacheTrace, hs, hok]
  | best_window_illumination =>
    obtain ⟨hs, hp⟩ := genCall_illumination_mem hcalled
    refine consecutive_of_mem_segment
      (updateBestWindowCacheTrace ok) (by simp [cycleSegments]) ?_
    refine ⟨[.genCall .best_window_strict, .memWrite .best_window_strict,
      .sharedWrite .best_window_strict, .genCall .best_window_practical,
      .memWrite .best_window_practical, .sharedWrite .best_window_practical], [], ?_⟩
    simp [updateBestWindowCacheTrace, hs, hp, hok]
  | moon_report =>
    exact consecutive_of_mem_segment
      (updateAstroCacheTrace .moon_report (ok .moon_report))
      (by simp [cycleSegments]) ⟨[], [], by simp [updateAstroCacheTrace, hok]⟩
  | dark_window =>
    exact consecutive_of_mem_segment
      (updateAstroCacheTrace .dark_window (ok .dark_window))
      (by simp [cycleSegments]) ⟨[], [], by simp [updateAstroCacheTrace, hok]⟩
  | moon_planner =>
    exact consecutive_of_mem_segment
      (updateAstroCacheTrace .moon_planner (ok .moon_planner))
      (by simp [cycleSegments]) ⟨[], [], by simp [updateAstroCacheTrace, hok]⟩
  | sun_report =>
    exact consecutive_of_mem_segment
      (updateAstroCacheTrace .sun_report (ok .sun_report))
      (by simp [cycleSegments]) ⟨[], [], by simp [updateAstroCacheTrace, hok]⟩
  | solar_eclipse =>
    exact consecutive_of_mem_segment
      (updateAstroCacheTrace .solar_eclipse (ok .solar_eclipse))
      (by simp [cycleSegments]) ⟨[], [], by simp [updateAstroCacheTrace, hok]⟩
  | lunar_eclipse =>
    exact consecutive_of_mem_segment
      (updateAstroCacheTrace .lunar_eclipse (ok .lunar_eclipse))
      (by simp [cycleSegments]) ⟨[], [], by simp [updateAstroCacheTrace, hok]⟩
  | horizon_graph =>
    exact consecutive_of_mem_segment
      (updateAstroCacheTrace .horizon_graph (ok .horizon_graph))
      (by simp [cycleSegments]) ⟨[], [], by simp [updateAstroCacheTrace, hok]⟩
/-- Witness for C5 amended at kind `sun_report` in a cycle where every generator
succeeds. -/
theorem c5_immediate_shared_write_witness :
    Consecutive (.genCall .sun_report) (.memWrite .sun_report) (.sharedWrite .sun_report)
      (fullCycleTrace (fun _ => true)) :=
  c5_immediate_shared_write (fun _ => true) .sun_report (by decide) (by decide) rfl

/-! The Job Scheduler of `backend/uptonight_scheduler.py` (`UptonightScheduler`).
The mutable attributes of the scheduler object form the state; the execution
cycle `_execute_uptonight_for_all_catalogues` is a state transformer that also
threads an explicit clock (each target's external job takes some duration) and
emits the ordered trace of its observable steps. -/

/-- Outcome of one target's external job run: clean exit, non-zero exit code,
`subprocess.TimeoutExpired`, or any other invocation error — all caught inside
`_execute_uptonight_for_catalogue` / the per-target `try` of the cycle loop. -/
inductive JobResult where
  | success
  | nonzeroExit (code : Int)
  | timeout
  | invocationError
deriving DecidableEq, Repr

/-- The mutable scheduler attributes set in `UptonightScheduler.__init__` and
mutated by the execution cycle. -/
structure SchedulerState where
  running : Bool
  last_run : Option Int
  current_catalogue : Option String
  current_index : Nat
  total_catalogues : Nat
  is_executing : Bool
  execution_start_time : Option Int
deriving DecidableEq, Repr

/-- The scheduler state right after `__init__` and `start`. -/
def startedSchedulerState : SchedulerState :=
  ⟨true, none, none, 0, 0, false, none⟩

/-- One observable step of the scheduler: cycle start, the per-target progress
update made before that target's job starts, the termination of a target's job,
cycle completion, and a write of the status snapshot to the shared status file. -/
inductive SchedEvent where
  | cycleStart
  | targetStart (name : String) (index : Nat)
  | targetDone (name : String) (result : JobResult)
  | cycleComplete
  | statusWrite
deriving DecidableEq, Repr

/-- The sequential per-target loop of `_execute_uptonight_for_all_catalogues`:
for each catalogue, in list order, the progress fields are updated before the
job starts, then the job runs for its duration and terminates with its result;
a failure is logged and the loop proceeds to the next catalogue. `catalogues`
pairs each configured target name with the duration its job takes; `outcome`
gives each target's job result; `total` and `i` are the loop's constants and
running index; `t` is the clock. -/
def runTargets (outcome : String → JobResult) (total : Nat) :
    Nat → Int → List (String × Int) → SchedulerState →
    SchedulerState × Int × List SchedEvent
  | _, t, [], s => (s, t, [])
  | i, t, (name, d) :: rest, s =>
    let s1 : SchedulerState :=
      { s with current_catalogue := some name, current_index := i + 1,
               total_catalogues := total, execution_start_time := some t }
    let r := runTargets outcome total (i + 1) (t + d) rest s1
    (r.1, r.2.1, .targetStart name (i + 1) :: .targetDone name (outcome name) :: r.2.2)

/-- Embedding of `_execute_uptonight_for_all_catalogues`: a held execution lock
drops the run; otherwise `last_run` is set to the CURRENT time (`now`, the
cycle's start), the targets run sequentially, and the progress fields are reset
to their idle values at the end. The second component is the clock value at
cycle completion. -/
def execute_all_catalogues (outcome : String → JobResult) (lockHeld : Bool)
    (now : Int) (catalogues : List (String × Int)) (s : SchedulerState) :
    SchedulerState × Int × List SchedEvent :=
  if lockHeld then (s, now, [])
  else
    let s1 : SchedulerState := { s with last_run := some now, is_executing := true }
    match catalogues with
    | [] => ({ s1 with is_executing := false }, now, [.cycleStart])
    | _ :: _ =>
      let r := runTargets outcome catalogues.length 0 now catalogues s1
      ({ r.1 with current_catalogue := none, current_index := 0, total_catalogues := 0,
                  is_executing := false, execution_start_time := none },
       r.2.1, .cycleStart :: r.2.2 ++ [.cycleComplete])

/-- The status snapshot of `get_status` (the `status` dict serialized to
`scheduler_status.json`). -/
structure SchedStatus where
  running : Bool
  last_run : Option Int
  next_run : Option Int
  is_executing : Bool
  current_catalogue : Option String
  current_index : Nat
  total_catalogues : Nat
  execution_duration_seconds : Option Int
deriving DecidableEq, Repr

/-- Embedding of `get_status`: builds the snapshot from the current state
(`next_run` derived as `last_run + SCHEDULE_INTERVAL`) and writes it to the
shared status file — the only place in the scheduler that writes that file. -/
def get_status (s : SchedulerState) (now : Int) : SchedStatus × List SchedEvent :=
  (⟨s.running, s.last_run, s.last_run.map (· + SCHEDULE_INTERVAL), s.is_executing,
    s.current_catalogue, s.current_index, s.total_catalogues,
    match s.is_executing, s.execution_start_time with
    | true, some st => some (now - st)
    | _, _ => none⟩,
   [.statusWrite])

/-- Result dictionaries returned by `trigger_now`. -/
inductive TriggerResult where
  | skipped (reason : String)
  | triggered
deriving DecidableEq, Repr

/-- Embedding of `trigger_now`: a held execution lock drops the trigger with an
explicit skipped result; otherwise a background execution thread is started
(second component: whether a new execution cycle was started). -/
def trigger_now (lockHeld : Bool) : TriggerResult × Bool :=
  if lockHeld then (.skipped "execution already in progress", false)
  else (.triggered, true)

theorem runTargets_preserves (outcome : String → JobResult) (total : Nat)
    (i : Nat) (t : Int) (catalogues : List (String × Int)) (s : SchedulerState) :
    (runTargets outcome total i t catalogues s).1.running = s.running ∧
    (runTargets outcome total i t catalogues s).1.last_run = s.last_run := by
  induction catalogues generalizing i t s with
  | nil => exact ⟨rfl, rfl⟩
  | cons c rest ih =>
    obtain ⟨name, d⟩ := c
    exact ih (i + 1) (t + d) _

/-- Extracts the job-termination events from a scheduler trace. -/
def doneOf : SchedEvent → Option (String × JobResult)
  | .targetDone name r => some (name, r)
  | _ => none

/-- Extracts the per-target progress-update events from a scheduler trace. -/
def startOf : SchedEvent → Option (String × Nat)
  | .targetStart name i => some (name, i)
  | _ => none

theorem runTargets_done (outcome : String → JobResult) (total : Nat)
    (i : Nat) (t : Int) (catalogues : List (String × Int)) (s : SchedulerState) :
    (runTargets outcome total i t catalogues s).2.2.filterMap doneOf =
      catalogues.map (fun c => (c.1, outcome c.1)) := by
  induction catalogues generalizing i t s with
  | nil => rfl
  | cons c rest ih =>
    obtain ⟨name, d⟩ := c
    simp [runTargets, List.filterMap_cons, doneOf, ih (i + 1) (t + d)]

theorem runTargets_started (outcome : String → JobResult) (total : Nat)
    (i : Nat) (t : Int) (catalogues : List (String × Int)) (s : SchedulerState) :
    (runTargets outcome total i t catalogues s).2.2.filterMap startOf =
      (catalogues.enumFrom i).map (fun p => (p.2.1, p.1 + 1)) := by
  induction catalogues generalizing i t s with
  | nil => rfl
  | cons c rest ih =>
    obtain ⟨name, d⟩ := c
    simp [runTargets, List.filterMap_cons, startOf, doneOf, List.enumFrom,
      ih (i + 1) (t + d)]

theorem statusWrite_not_mem_runTargets (outcome : String → JobResult) (total : Nat)
    (i : Nat) (t : Int) (catalogues : List (String × Int)) (s : SchedulerState) :
    SchedEvent.statusWrite ∉ (runTargets outcome total i t catalogues s).2.2 := by
  induction catalogues generalizing i t s with
  | nil => simp [runTargets]
  | cons c rest ih =>
    obtain ⟨name, d⟩ := c
    simp [runTargets, ih (i + 1) (t + d)]

/-- C6 counterexample: a cycle starting at time 100 with a single target whose
job takes 50 seconds completes at time 150, yet the recorded `last_run` is 100
— the cycle's START time, not its completion time as the claim states
(`self.last_run = datetime.now()` runs before the target loop). -/
theorem c6_last_run_is_start_counterexample :
    (execute_all_catalogues (fun _ => .success) false 100 [("OpenNGC", 50)]
        startedSchedulerState).1.last_run = some 100 ∧
    (execute_all_catalogues (fun _ => .success) false 100 [("OpenNGC", 50)]
        startedSchedulerState).2.1 = 150 ∧
    (100 : Int) ≠ 150 := by
  refine ⟨rfl, rfl, by decide⟩

/-- C6 amended: after a full execution cycle the progress fields are reset to
their idle values, and the recorded `last_run` equals the cycle's START time
(not its completion time), from which `next_run` is derived as
`last_run + SCHEDULE_INTERVAL`. -/
theorem c6_cycle_end_state (outcome : String → JobResult) (now : Int)
    (catalogues : List (String × Int)) (s : SchedulerState) (t : Int)
    (hne : catalogues ≠ []) :
    (execute_all_catalogues outcome false now catalogues s).1.current_catalogue = none ∧
    (execute_all_catalogues outcome false now catalogues s).1.current_index = 0 ∧
    (execute_all_catalogues outcome false now catalogues s).1.total_catalogues = 0 ∧
    (execute_all_catalogues outcome false now catalogues s).1.is_executing = false ∧
    (execute_all_catalogues outcome false now catalogues s).1.execution_start_time = none ∧
    (execute_all_catalogues outcome false now catalogues s).1.last_run = some now ∧
    (get_status (execute_all_catalogues outcome false now catalogues s).1 t).1.next_run
      = some (now + SCHEDULE_INTERVAL) := by
  match catalogues with
  | [] => exact absurd rfl hne
  | c :: cs =>
    have hlr : (execute_all_catalogues outcome false now (c :: cs) s).1.last_run
        = some now := by
      have := (runTargets_preserves outcome (c :: cs).length 0 now (c :: cs)
        { s with last_run := some now, is_executing := true }).2
      simpa [execute_all_catalogues] using this
    refine ⟨rfl, rfl, rfl, rfl, rfl, hlr, ?_⟩
    simp [get_status, hlr]

/-- Witness for C6 amended at a concrete two-target cycle. -/
theorem c6_cycle_end_state_witness :
    (execute_all_catalogues (fun _ => .timeout) false 1000 [("Messier", 600), ("OpenNGC", 30)]
        startedSchedulerState).1.is_executing = false ∧
    (execute_all_catalogues (fun _ => .timeout) false 1000 [("Messier", 600), ("OpenNGC", 30)]
        startedSchedulerState).1.last_run = some 1000 ∧
    (get_status (execute_all_catalogues (fun _ => .timeout) false 1000
        [("Messier", 600), ("OpenNGC", 30)] startedSchedulerState).1 2000).1.next_run
      = some (1000 + SCHEDULE_INTERVAL) := by
  have h := c6_cycle_end_state (fun _ => .timeout) 1000 [("Messier", 600), ("OpenNGC", 30)]
    startedSchedulerState 2000 (by decide)
  exact ⟨h.2.2.2.1, h.2.2.2.2.2.1, h.2.2.2.2.2.2⟩

/-- C7 counterexample: a full execution cycle performs several state
transitions (cycle start, two per-target progress updates, cycle completion)
yet serializes the status snapshot to the shared status file after none of
them — the status file is written only inside `get_status`. -/
theorem c7_no_status_write_in_cycle_counterexample :
    SchedEvent.statusWrite ∉
      (execute_all_catalogues (fun _ => .success) false 0 [("Messier", 10), ("OpenNGC", 10)]
        startedSchedulerState).2.2 ∧
    SchedEvent.cycleStart ∈
      (execute_all_catalogues (fun _ => .success) false 0 [("Messier", 10), ("OpenNGC", 10)]
        startedSchedulerState).2.2 ∧
    SchedEvent.targetStart "Messier" 1 ∈
      (execute_all_catalogues (fun _ => .success) false 0 [("Messier", 10), ("OpenNGC", 10)]
        startedSchedulerState).2.2 ∧
    SchedEvent.cycleComplete ∈
      (execute_all_catalogues (fun _ => .success) false 0 [("Messier", 10), ("OpenNGC", 10)]
        startedSchedulerState).2.2 := by
  decide

/-- C7 amended: the scheduler writes the status snapshot to the shared status
file only when `get_status` is invoked (each status query), never during the
execution cycle's state transitions; the snapshot written by `get_status` is a
faithful copy of the current state. -/
theorem c7_status_write_only_in_get_status (outcome : String → JobResult)
    (lockHeld : Bool) (now : Int) (catalogues : List (String × Int))
    (s : SchedulerState) (s' : SchedulerState) (now' : Int) :
    SchedEvent.statusWrite ∉
      (execute_all_catalogues outcome lockHeld now catalogues s).2.2 ∧
    (get_status s' now').2 = [SchedEvent.statusWrite] ∧
    (get_status s' now').1.running = s'.running ∧
    (get_status s' now').1.last_run = s'.last_run ∧
    (get_status s' now').1.next_run = s'.last_run.map (· + SCHEDULE_INTERVAL) ∧
    (get_status s' now').1.is_executing = s'.is_executing ∧
    (get_status s' now').1.current_catalogue = s'.current_catalogue ∧
    (get_status s' now').1.current_index = s'.current_index ∧
    (get_status s' now').1.total_catalogues = s'.total_catalogues := by
  refine ⟨?_, rfl, rfl, rfl, rfl, rfl, rfl, rfl, rfl⟩
  match lockHeld with
  | true => simp [execute_all_catalogues]
  | false =>
    match catalogues with
    | [] => simp [execute_all_catalogues]
    | c :: cs =>
      simp only [execute_all_catalogues, Bool.false_eq_true, if_false, List.mem_cons,
        List.mem_append, List.mem_singleton]
      intro h
      rcases h with (h | h) | (h | h)
      · cases h
      · exact statusWrite_not_mem_runTargets _ _ _ _ _ _ h
      · cases h
      · cases h

/-- C8: a manual trigger arriving while the execution lock is held is dropped —
`trigger_now` answers a skipped result whose reason states execution is already
in progress and starts no execution thread; and an execution cycle entered with
the lock held returns immediately, changing nothing and running no target. -/
theorem c8_trigger_deduplication :
    trigger_now true = (.skipped "execution already in progress", false) ∧
    (∀ (outcome : String → JobResult) (now : Int) (catalogues : List (String × Int))
      (s : SchedulerState),
      execute_all_catalogues outcome true now catalogues s = (s, now, [])) ∧
    trigger_now false = (.triggered, true) := by
  exact ⟨rfl, fun _ _ _ _ => rfl, rfl⟩

/-- C9: the execution cycle processes the configured targets sequentially in
list order, and no target's failure (non-zero exit, timeout, invocation error)
aborts the batch: for EVERY outcome assignment the trace records a progress
update for each target, in list order with indices 1..N, and a job termination
for each target with its own outcome — so each target after a failing one is
still executed. -/
theorem c9_sequential_no_abort (outcome : String → JobResult) (now : Int)
    (catalogues : List (String × Int)) (s : SchedulerState) :
    (execute_all_catalogues outcome false now catalogues s).2.2.filterMap doneOf
      = catalogues.map (fun c => (c.1, outcome c.1)) ∧
    (execute_all_catalogues outcome false now catalogues s).2.2.filterMap startOf
      = (catalogues.enumFrom 0).map (fun p => (p.2.1, p.1 + 1)) := by
  match catalogues with
  | [] => exact ⟨rfl, rfl⟩
  | c :: cs =>
    constructor
    · simp only [execute_all_catalogues, Bool.false_eq_true, if_false]
      simp [List.filterMap_cons, List.filterMap_append, doneOf, runTargets_done]
    · simp only [execute_all_catalogues, Bool.false_eq_true, if_false]
      simp [List.filterMap_cons, List.filterMap_append, startOf, runTargets_started]

end Myastroboard
